import Mathlib

/-!
Shallow embedding of the flow-tracking application in `src/App.tsx`.

Modelling conventions:
- Timestamps and durations are rationals (`ℚ`): `getTimeStamp()` returns
  `Date.now() / 1000`, a decimal number of seconds; all values the program
  produces at the inputs used in the theorems below are exactly representable,
  so rational arithmetic coincides with the JavaScript double arithmetic there.
- JavaScript numbers that can become non-finite (division by `totalTime`,
  arithmetic on possibly-missing object fields) are modelled by `JSNum`, a
  rational extended with `inf`, `neginf` and `nan`, with IEEE-754 rules for the
  operations the program performs.
- The `currentFlow` field is `null`, or an object whose `name` / `startTime` /
  `endTime` properties may each be missing (the code stores `{name, startTime}`
  after `startFlow` and `{}` after `endFlow`), so it is modelled as
  `Option FlowObj` with `Option`-valued fields.
- Event handlers are modelled as state transformers taking the current clock
  reading `now` explicitly.  `doTranistion` (sic) only animates and then sets
  `flowState`; handlers are modelled with their complete eventual effect: data
  fields change at trigger time and `flowState` takes the target phase, with
  `inTransition` back at `false` (the quiescent state after the timer fires).
- Local-storage persistence transports the `JSON.stringify`ed state verbatim,
  so it is modelled at the level of the JSON document tree: `encodeState`
  follows `JSON.stringify(this.state)` and `decodeState` reads the parsed tree
  back as a state (`this.state = JSON.parse(localStateString)`).
-/

/-- JavaScript number: a finite rational or one of the IEEE special values. -/
inductive JSNum where
  | fin : ℚ → JSNum
  | inf : JSNum
  | neginf : JSNum
  | nan : JSNum
deriving DecidableEq, Repr

namespace JSNum

/-- JavaScript subtraction `a - b`, total on `JSNum`. -/
def sub : JSNum → JSNum → JSNum
  | nan, _ => nan
  | _, nan => nan
  | fin a, fin b => fin (a - b)
  | fin _, inf => neginf
  | fin _, neginf => inf
  | inf, fin _ => inf
  | inf, inf => nan
  | inf, neginf => inf
  | neginf, fin _ => neginf
  | neginf, inf => neginf
  | neginf, neginf => nan

/-- JavaScript division `a / b`; division of a nonzero finite number by zero
gives a signed infinity and `0 / 0` gives `NaN` (the model's `0` is IEEE `+0`). -/
def div : JSNum → JSNum → JSNum
  | nan, _ => nan
  | _, nan => nan
  | fin a, fin b =>
      if b = 0 then (if a = 0 then nan else if 0 < a then inf else neginf)
      else fin (a / b)
  | fin _, inf => fin 0
  | fin _, neginf => fin 0
  | inf, fin b => if 0 ≤ b then inf else neginf
  | neginf, fin b => if 0 ≤ b then neginf else inf
  | inf, inf => nan
  | inf, neginf => nan
  | neginf, inf => nan
  | neginf, neginf => nan

/-- JavaScript multiplication by a finite constant `c`. -/
def mulConst : JSNum → ℚ → JSNum
  | nan, _ => nan
  | fin a, c => fin (a * c)
  | inf, c => if c = 0 then nan else if 0 < c then inf else neginf
  | neginf, c => if c = 0 then nan else if 0 < c then neginf else inf

/-- JavaScript comparison `a < b`; any comparison with `NaN` is false. -/
def lt : JSNum → JSNum → Bool
  | nan, _ => false
  | _, nan => false
  | fin a, fin b => a < b
  | fin _, inf => true
  | fin _, neginf => false
  | inf, _ => false
  | neginf, neginf => false
  | neginf, inf => true
  | neginf, fin _ => true

/-- JavaScript `Math.round`: halves round toward positive infinity. -/
def round : JSNum → JSNum
  | fin a => fin ((⌊a + 1/2⌋ : ℤ) : ℚ)
  | inf => inf
  | neginf => neginf
  | nan => nan

/-- Whether the number is finite (neither infinite nor `NaN`). -/
def isFinite : JSNum → Bool
  | fin _ => true
  | _ => false

end JSNum

/-- A possibly-missing numeric object property read in an arithmetic context:
`undefined` converts to `NaN`. -/
def optToJS : Option ℚ → JSNum
  | some q => JSNum.fin q
  | none => JSNum.nan

/-- The number of seconds in a minute (`SECONDS_IN_MINUTE`). -/
def SECONDS_IN_MINUTE : ℚ := 60

/-- The default minimum flow length in minutes (`DEFAULT_ALLOWED_FLOW_LENGTH`). -/
def DEFAULT_ALLOWED_FLOW_LENGTH : ℚ := 60

/-- The conversion `secondsToMinutes`: `Math.round(seconds / SECONDS_IN_MINUTE)`. -/
def secondsToMinutes (seconds : JSNum) : JSNum :=
  JSNum.round (JSNum.div seconds (JSNum.fin SECONDS_IN_MINUTE))

/-- The helper `getOffset`: `((endTime - startTime) / totalTime) * 100`. -/
def getOffset (startTime endTime totalTime : JSNum) : JSNum :=
  JSNum.mulConst (JSNum.div (JSNum.sub endTime startTime) totalTime) 100

/-- The formatting core of `displayTimeStamp`, given the clock fields
`hours = getHours()` (0..23) and `minutes = getMinutes()` (0..59). -/
def displayHoursMinutes (hours minutes : ℕ) : String :=
  let ampm := if hours ≥ 12 then "pm" else "am"
  let formattedHours := hours % 12
  let formattedHours := if hours = 0 then 12 else formattedHours
  let formattedMinutes :=
    if minutes < 10 then "0" ++ toString minutes else toString minutes
  toString formattedHours ++ ":" ++ formattedMinutes ++ ampm

/-- The helper `displayTimeStamp`, with the clock modelled at UTC offset zero:
`getHours` and `getMinutes` of a timestamp of `time` whole seconds.  The
formatting core `displayHoursMinutes` itself is timezone-independent. -/
def displayTimeStamp (time : ℕ) : String :=
  displayHoursMinutes (time / 3600 % 24) (time % 3600 / 60)

/-- A flow object (`IFlowItem` as actually constructed): each property may be
missing, since the code stores `{name, startTime}` and `{}`. -/
structure FlowObj where
  name : Option String
  startTime : Option ℚ
  endTime : Option ℚ
deriving DecidableEq, Repr

/-- The `FlowState` enum. -/
inductive FlowState where
  | Start
  | FlowPrompt
  | InFlow
  | FlowSummary
deriving DecidableEq, Repr

/-- The application state (the `DEFAULT_STATE` shape). -/
structure AppState where
  startTime : ℚ
  endTime : ℚ
  flowInput : String
  currentFlow : Option FlowObj
  flowState : FlowState
  flows : List FlowObj
  inTransition : Bool
  transitionTime : ℚ
  filterFlowLength : ℚ
deriving DecidableEq, Repr

/-- The default application state `DEFAULT_STATE`. -/
def DEFAULT_STATE : AppState :=
  { startTime := 0
    endTime := 0
    flowInput := ""
    currentFlow := none
    flowState := FlowState.Start
    flows := []
    inTransition := false
    transitionTime := 0
    filterFlowLength := DEFAULT_ALLOWED_FLOW_LENGTH }

/-- The guard of `endFlow`: `!this.state.currentFlow || !this.state.currentFlow!.name`
(true when `currentFlow` is `null`, or its `name` is missing or the empty string). -/
def noActiveFlow (currentFlow : Option FlowObj) : Bool :=
  match currentFlow with
  | none => true
  | some f =>
    match f.name with
    | none => true
    | some n => n = ""

/-- Whether a valid (named) flow is currently active. -/
def flowIsActive (s : AppState) : Bool :=
  !noActiveFlow s.currentFlow

/-- The operation `startFlow(taskName)`: unconditionally stores
`{name: taskName, startTime: getTimeStamp()}` as the current flow
(no `endTime` property). -/
def startFlow (taskName : String) (now : ℚ) (s : AppState) : AppState :=
  { s with currentFlow := some { name := some taskName, startTime := some now, endTime := none } }

/-- The operation `endFlow()`: returns unchanged unless a named current flow
exists; otherwise appends `{...currentFlow, endTime: getTimeStamp()}` to
`flows` and stores the empty object `{}` as the current flow. -/
def endFlow (now : ℚ) (s : AppState) : AppState :=
  match s.currentFlow with
  | none => s
  | some f =>
    match f.name with
    | none => s
    | some n =>
      if n = "" then s
      else
        { s with
          currentFlow := some { name := none, startTime := none, endTime := none }
          flows := s.flows ++ [{ f with endTime := some now }] }

/-- The handler `handleStartClick`: records `startTime = now` and transitions
to the `FlowPrompt` phase. -/
def handleStartClick (now : ℚ) (s : AppState) : AppState :=
  { s with startTime := now, flowState := FlowState.FlowPrompt }

/-- The handler `handleFlowInputChange`: stores the input field value. -/
def handleFlowInputChange (v : String) (s : AppState) : AppState :=
  { s with flowInput := v }

/-- The handler `handleFlowSubmit`: returns unchanged when the buffered input
is empty, otherwise runs `startFlow` on it and transitions to `InFlow`. -/
def handleFlowSubmit (now : ℚ) (s : AppState) : AppState :=
  if s.flowInput.length = 0 then s
  else { startFlow s.flowInput now s with flowState := FlowState.InFlow }

/-- The handler `handlePauseFlowClick`: runs `endFlow` and transitions back to
the `FlowPrompt` phase. -/
def handlePauseFlowClick (now : ℚ) (s : AppState) : AppState :=
  { endFlow now s with flowState := FlowState.FlowPrompt }

/-- The handler `handleEndClick`: runs `endFlow`, records `endTime = now`
(durable storage is also cleared, outside this state), and transitions to the
`FlowSummary` phase. -/
def handleEndClick (now : ℚ) (s : AppState) : AppState :=
  { endFlow now s with endTime := now, flowState := FlowState.FlowSummary }

/-- The handler `handleSliderChange`: stores the filter length. -/
def handleSliderChange (v : ℚ) (s : AppState) : AppState :=
  { s with filterFlowLength := v }

/-- The handler `handleResetClick`: replaces the state with `DEFAULT_STATE`. -/
def handleResetClick (_s : AppState) : AppState :=
  DEFAULT_STATE

/-- An externally triggerable operation of the application. -/
inductive Op where
  | startClick (now : ℚ)
  | inputChange (v : String)
  | flowSubmit (now : ℚ)
  | pauseClick (now : ℚ)
  | endClick (now : ℚ)
  | sliderChange (v : ℚ)
  | resetClick
deriving DecidableEq, Repr

/-- Applies one operation to the state. -/
def applyOp : Op → AppState → AppState
  | Op.startClick now => handleStartClick now
  | Op.inputChange v => handleFlowInputChange v
  | Op.flowSubmit now => handleFlowSubmit now
  | Op.pauseClick now => handlePauseFlowClick now
  | Op.endClick now => handleEndClick now
  | Op.sliderChange v => handleSliderChange v
  | Op.resetClick => handleResetClick

/-- Runs a sequence of operations from a starting state. -/
def runOps (ops : List Op) (s : AppState) : AppState :=
  ops.foldl (fun t op => applyOp op t) s

/-- A rendered flow item's props in the summary (`IFlowItemProps`). -/
structure FlowItemProps where
  leftOffset : JSNum
  rightOffset : JSNum
  minutesOnFlow : JSNum
  taskName : Option String
deriving DecidableEq, Repr

/-- The duration `flowTime = flow.endTime - flow.startTime` of a stored flow
(`NaN` when a field is missing). -/
def flowTime (f : FlowObj) : JSNum :=
  JSNum.sub (optToJS f.endTime) (optToJS f.startTime)

/-- The filter decision in `FlowSummary`: a flow is dropped (the map callback
returns early) exactly when `flowTime < filterFlowLength * SECONDS_IN_MINUTE`. -/
def summaryKept (filterFlowLength : ℚ) (f : FlowObj) : Bool :=
  !(JSNum.lt (flowTime f) (JSNum.fin (filterFlowLength * SECONDS_IN_MINUTE)))

/-- The props `FlowSummary` passes for one kept flow, with
`totalTime = dayEnd - dayStart`. -/
def renderFlow (s : AppState) (f : FlowObj) : FlowItemProps :=
  let totalTime := s.endTime - s.startTime
  { leftOffset := getOffset (JSNum.fin s.startTime) (optToJS f.startTime) (JSNum.fin totalTime)
    rightOffset := getOffset (optToJS f.endTime) (JSNum.fin s.endTime) (JSNum.fin totalTime)
    minutesOnFlow := secondsToMinutes (flowTime f)
    taskName := f.name }

/-- The list of per-flow items rendered by `FlowSummary` (in `flows` order,
with the filtered flows dropped). -/
def summaryFlowItems (s : AppState) : List FlowItemProps :=
  (s.flows.filter (fun f => summaryKept s.filterFlowLength f)).map (renderFlow s)

/-- The synthetic leading "Total Time" item of `FlowSummary`: both offsets are
the literal `0` and the duration is `secondsToMinutes(totalTime)`. -/
def totalTimeItem (s : AppState) : FlowItemProps :=
  { leftOffset := JSNum.fin 0
    rightOffset := JSNum.fin 0
    minutesOnFlow := secondsToMinutes (JSNum.fin (s.endTime - s.startTime))
    taskName := some "Total Time" }

/-- A JSON document tree. -/
inductive Json where
  | null : Json
  | bool : Bool → Json
  | num : ℚ → Json
  | str : String → Json
  | arr : List Json → Json
  | obj : List (String × Json) → Json
deriving Repr

/-- Serializes a flow object as `JSON.stringify` does: missing (`undefined`)
properties are omitted. -/
def encodeFlowObj (f : FlowObj) : Json :=
  Json.obj
    ((match f.name with | some n => [("name", Json.str n)] | none => []) ++
     (match f.startTime with | some q => [("startTime", Json.num q)] | none => []) ++
     (match f.endTime with | some q => [("endTime", Json.num q)] | none => []))

/-- Reads a string-valued JSON field. -/
def asStr : Json → Option String
  | Json.str v => some v
  | _ => none

/-- Reads a number-valued JSON field. -/
def asNum : Json → Option ℚ
  | Json.num v => some v
  | _ => none

/-- Reads a boolean-valued JSON field. -/
def asBool : Json → Option Bool
  | Json.bool v => some v
  | _ => none

/-- Reads a parsed flow object back from its JSON form. -/
def decodeFlowObj (j : Json) : Option FlowObj :=
  match j with
  | Json.obj kvs =>
      some
        { name := (kvs.lookup "name").bind asStr
          startTime := (kvs.lookup "startTime").bind asNum
          endTime := (kvs.lookup "endTime").bind asNum }
  | _ => none

/-- Reads a parsed list of flow objects back from its JSON form. -/
def decodeFlowList : List Json → Option (List FlowObj)
  | [] => some []
  | j :: rest =>
      match decodeFlowObj j, decodeFlowList rest with
      | some f, some fs => some (f :: fs)
      | _, _ => none

/-- The numeric value the `FlowState` enum member serializes to. -/
def flowStateToNum : FlowState → ℚ
  | FlowState.Start => 0
  | FlowState.FlowPrompt => 1
  | FlowState.InFlow => 2
  | FlowState.FlowSummary => 3

/-- Reads a `FlowState` back from its serialized numeric value. -/
def numToFlowState (q : ℚ) : Option FlowState :=
  if q = 0 then some FlowState.Start
  else if q = 1 then some FlowState.FlowPrompt
  else if q = 2 then some FlowState.InFlow
  else if q = 3 then some FlowState.FlowSummary
  else none

/-- Serializes the whole state as `JSON.stringify(this.state)` does
(`saveStateToLocal`), property creation order preserved. -/
def encodeState (s : AppState) : Json :=
  Json.obj
    [("startTime", Json.num s.startTime),
     ("endTime", Json.num s.endTime),
     ("flowInput", Json.str s.flowInput),
     ("currentFlow",
       match s.currentFlow with
       | none => Json.null
       | some f => encodeFlowObj f),
     ("flowState", Json.num (flowStateToNum s.flowState)),
     ("flows", Json.arr (s.flows.map encodeFlowObj)),
     ("inTransition", Json.bool s.inTransition),
     ("transitionTime", Json.num s.transitionTime),
     ("filterFlowLength", Json.num s.filterFlowLength)]

/-- Reads the `currentFlow` field back: `null` or a flow object. -/
def decodeCurrentFlow (j : Json) : Option (Option FlowObj) :=
  match j with
  | Json.null => some none
  | Json.obj kvs => (decodeFlowObj (Json.obj kvs)).map some
  | _ => none

/-- Reads a parsed state back from its JSON form (the constructor's
`this.state = JSON.parse(localStateString)`, typed field by field). -/
def decodeState (j : Json) : Option AppState :=
  match j with
  | Json.obj kvs =>
      match (kvs.lookup "startTime").bind asNum,
            (kvs.lookup "endTime").bind asNum,
            (kvs.lookup "flowInput").bind asStr,
            (kvs.lookup "currentFlow").bind decodeCurrentFlow,
            ((kvs.lookup "flowState").bind asNum).bind numToFlowState,
            (kvs.lookup "flows"),
            (kvs.lookup "inTransition").bind asBool,
            (kvs.lookup "transitionTime").bind asNum,
            (kvs.lookup "filterFlowLength").bind asNum with
      | some st, some et, some fi, some cf, some fs, some (Json.arr flowsJ), some it, some tt, some ff =>
          match decodeFlowList flowsJ with
          | some flows =>
              some
                { startTime := st, endTime := et, flowInput := fi, currentFlow := cf
                  flowState := fs, flows := flows, inTransition := it
                  transitionTime := tt, filterFlowLength := ff }
          | none => none
      | _, _, _, _, _, _, _, _, _ => none
  | _ => none

/-- A reachable state with an active flow, the input buffer still holding the
submitted name: begin at 0, type "a", submit at 10. -/
def stateC1 : AppState :=
  runOps [Op.startClick 0, Op.inputChange "a", Op.flowSubmit 10] DEFAULT_STATE

/-- A summary state with a zero-length day (`startTime = endTime = 1000`), the
filter slider at 0, and one zero-length completed flow. -/
def stateC2 : AppState :=
  { startTime := 1000, endTime := 1000, flowInput := "", currentFlow := none
    flowState := FlowState.FlowSummary
    flows := [{ name := some "a", startTime := some 1000, endTime := some 1000 }]
    inTransition := false, transitionTime := 0, filterFlowLength := 0 }

/-- A state in the `InFlow` phase with a valid active flow started at 10. -/
def stateC3 : AppState :=
  { DEFAULT_STATE with
    currentFlow := some { name := some "a", startTime := some 10, endTime := none }
    flowState := FlowState.InFlow }

/-- A state in the `InFlow` phase with a valid active flow started at 100. -/
def stateC4 : AppState :=
  { DEFAULT_STATE with
    flowInput := "t"
    currentFlow := some { name := some "t", startTime := some 100, endTime := none }
    flowState := FlowState.InFlow }

/-- A summary state for the offset example: day from 0 to 7200, one flow from
1800 to 3600, the filter slider at 0 so the flow is rendered. -/
def stateC6 : AppState :=
  { startTime := 0, endTime := 7200, flowInput := "", currentFlow := none
    flowState := FlowState.FlowSummary
    flows := [{ name := some "a", startTime := some 1800, endTime := some 3600 }]
    inTransition := false, transitionTime := 0, filterFlowLength := 0 }

/-- A reachable state holding one completed flow: begin at 0, type "a", submit
at 10, pause at 20. -/
def stateC9 : AppState :=
  runOps [Op.startClick 0, Op.inputChange "a", Op.flowSubmit 10, Op.pauseClick 20] DEFAULT_STATE

/-- A state with a valid active flow named "w" started at 5, used to
instantiate the `endFlow` contract. -/
def stateW3 : AppState :=
  { DEFAULT_STATE with currentFlow := some { name := some "w", startTime := some 5, endTime := none } }

/-- A state with a valid active flow named "x" started at 1, used to
instantiate the deactivation property. -/
def stateW4 : AppState :=
  { DEFAULT_STATE with currentFlow := some { name := some "x", startTime := some 1, endTime := none } }

/-- A state with a valid active flow named "y" started at 2, used to
instantiate the append-only property. -/
def stateW9 : AppState :=
  { DEFAULT_STATE with currentFlow := some { name := some "y", startTime := some 2, endTime := none } }

/-- Decoding inverts encoding for a single flow object. -/
theorem decodeFlowObj_encodeFlowObj (f : FlowObj) :
    decodeFlowObj (encodeFlowObj f) = some f := by
  obtain ⟨n, st, en⟩ := f
  cases n <;> cases st <;> cases en <;> rfl

/-- Decoding inverts encoding for a list of flow objects. -/
theorem decodeFlowList_encode (l : List FlowObj) :
    decodeFlowList (l.map encodeFlowObj) = some l := by
  induction l with
  | nil => rfl
  | cons f t ih => simp [List.map, decodeFlowList, decodeFlowObj_encodeFlowObj, ih]

/-- Decoding inverts encoding for the `FlowState` enum value. -/
theorem numToFlowState_flowStateToNum (fs : FlowState) :
    numToFlowState (flowStateToNum fs) = some fs := by
  cases fs <;> decide

/-- Decoding inverts encoding for the `currentFlow` field. -/
theorem decodeCurrentFlow_encode (cf : Option FlowObj) :
    decodeCurrentFlow
      (match cf with | none => Json.null | some f => encodeFlowObj f) = some cf := by
  cases cf with
  | none => rfl
  | some f =>
    obtain ⟨n, st, en⟩ := f
    cases n <;> cases st <;> cases en <;> rfl

/-- The `flows` list after `endFlow` is the old list, or the old list with one
stamped copy of the current flow appended. -/
theorem endFlow_flows (now : ℚ) (s : AppState) :
    (endFlow now s).flows = s.flows ∨
      ∃ f, (endFlow now s).flows = s.flows ++ [f] := by
  obtain ⟨st, et, fi, cf, fs, fl, it, tt, ff⟩ := s
  cases cf with
  | none => exact Or.inl rfl
  | some f =>
    obtain ⟨n, fst, fen⟩ := f
    cases n with
    | none => exact Or.inl rfl
    | some nm =>
      by_cases h : nm = ""
      · exact Or.inl (by simp [endFlow, h])
      · exact Or.inr
          ⟨{ name := some nm, startTime := fst, endTime := some now }, by simp [endFlow, h]⟩

/-- A string has length zero exactly when it is the empty string. -/
theorem string_length_zero_iff (s : String) : s.length = 0 ↔ s = "" := by
  obtain ⟨data⟩ := s
  constructor
  · intro h
    have hd : data = [] := List.length_eq_zero.mp h
    subst hd
    rfl
  · intro h
    rw [h]
    rfl

/-- C1: submitting a second task name while a flow is active overwrites the
active flow: in the reachable state `stateC1` the active flow started at 10,
and a second submit at 20 (the input buffer still holds a non-empty name)
replaces it with a flow started at 20, so the first flow's `startTime` does
not survive.  This refutes the claim that `startFlow` while a flow is active
leaves the first flow's `startTime` unchanged. -/
theorem C1_counterexample :
    flowIsActive stateC1 = true ∧
    stateC1.currentFlow = some { name := some "a", startTime := some 10, endTime := none } ∧
    (applyOp (Op.flowSubmit 20) stateC1).currentFlow =
      some { name := some "a", startTime := some 20, endTime := none } := by
  exact ⟨by decide, by decide, by decide⟩

/-- C1 (amended): `currentFlow` is a single field, so at most one current flow
exists, but `startFlow` has no active-flow guard: `handleFlowSubmit` is a no-op
exactly on an empty input buffer, and on a non-empty input it unconditionally
stores a fresh flow (name from the buffer, `startTime = now`), overwriting any
active flow. -/
theorem C1_start_overwrites (s : AppState) (now : ℚ) :
    (s.flowInput = "" → handleFlowSubmit now s = s) ∧
    (s.flowInput ≠ "" →
      (handleFlowSubmit now s).currentFlow =
        some { name := some s.flowInput, startTime := some now, endTime := none }) := by
  constructor
  · intro h
    have hl : s.flowInput.length = 0 := (string_length_zero_iff s.flowInput).mpr h
    simp [handleFlowSubmit, hl]
  · intro h
    have hl : s.flowInput.length ≠ 0 := fun hl => h ((string_length_zero_iff s.flowInput).mp hl)
    simp [handleFlowSubmit, startFlow, hl]

/-- C1 witness: the amended overwrite property instantiated in the reachable
state `stateC1` at a second submission at time 20. -/
theorem C1_start_overwrites_witness :
    (handleFlowSubmit 20 stateC1).currentFlow =
      some { name := some "a", startTime := some 20, endTime := none } :=
  (C1_start_overwrites stateC1 20).2 (by decide)

/-- The operation `endFlow` returns the state unchanged when its guard fires
(no current flow, or a missing or empty name). -/
theorem endFlow_of_noActive (now : ℚ) (s : AppState)
    (h : noActiveFlow s.currentFlow = true) : endFlow now s = s := by
  obtain ⟨st, et, fi, cf, fs, fl, it, tt, ff⟩ := s
  cases cf with
  | none => rfl
  | some f =>
    obtain ⟨n, fst, fen⟩ := f
    cases n with
    | none => rfl
    | some nm =>
      have hnm : nm = "" := by simpa [noActiveFlow] using h
      simp [endFlow, hnm]

/-- C3: in `stateC3` (a valid active flow), `endFlow` does not clear the
`currentFlow` field to the absent value: it stores the empty object (all
properties missing), which is not `null`.  This refutes the claim's "clears
currentFlow" read as the field becoming absent. -/
theorem C3_counterexample :
    flowIsActive stateC3 = true ∧
    (endFlow 20 stateC3).currentFlow =
      some { name := none, startTime := none, endTime := none } ∧
    (endFlow 20 stateC3).currentFlow ≠ none := by
  exact ⟨by decide, by decide, by decide⟩

/-- C3 (amended): `endFlow` is an idempotent no-op when no valid flow is
active: if `currentFlow` is `null` or its name is missing or empty, the state
is left entirely unchanged (so nothing is appended); when a valid flow `f` is
active, `endFlow` appends exactly the copy of `f` stamped with
`endTime = now` to `flows` and replaces `currentFlow` with the empty object
(no name), which every later `endFlow` treats as no active flow, so a second
`endFlow` immediately after the first changes nothing further. -/
theorem C3_endFlow_contract (now : ℚ) (s : AppState) :
    (noActiveFlow s.currentFlow = true → endFlow now s = s) ∧
    (∀ f, s.currentFlow = some f → flowIsActive s = true →
      (endFlow now s).flows = s.flows ++ [{ f with endTime := some now }] ∧
      (endFlow now s).currentFlow =
        some { name := none, startTime := none, endTime := none } ∧
      ∀ later, endFlow later (endFlow now s) = endFlow now s) := by
  refine ⟨endFlow_of_noActive now _, ?_⟩
  obtain ⟨st, et, fi, cf, fs, fl, it, tt, ff⟩ := s
  rintro f hcf hact
  have hcf2 : cf = some f := hcf
  subst hcf2
  obtain ⟨n, fst, fen⟩ := f
  cases n with
  | none => simp [flowIsActive, noActiveFlow] at hact
  | some nm =>
    have hnm : ¬nm = "" := by simpa [flowIsActive, noActiveFlow] using hact
    refine ⟨by simp [endFlow, hnm], by simp [endFlow, hnm], ?_⟩
    intro later
    simp [endFlow, hnm]

/-- C3 witness: the amended `endFlow` contract instantiated at `stateW3`,
whose active flow is named "w" and started at 5, ended at time 7. -/
theorem C3_endFlow_contract_witness :
    (endFlow 7 stateW3).flows =
      stateW3.flows ++ [{ name := some "w", startTime := some 5, endTime := some 7 }] :=
  ((C3_endFlow_contract 7 stateW3).2
    { name := some "w", startTime := some 5, endTime := none } rfl (by decide)).1

/-- C4: after the pause handler runs `endFlow` in `stateC4`, the phase is back
at `FlowPrompt` (outside `InFlow`) yet `currentFlow` is not absent: it holds
the empty object.  This refutes the claim that `currentFlow` is absent after
`endFlow` and outside the `InFlow` phase. -/
theorem C4_counterexample :
    (handlePauseFlowClick 200 stateC4).flowState = FlowState.FlowPrompt ∧
    (handlePauseFlowClick 200 stateC4).currentFlow =
      some { name := none, startTime := none, endTime := none } ∧
    (handlePauseFlowClick 200 stateC4).currentFlow ≠ none := by
  exact ⟨by decide, by decide, by decide⟩

/-- C4 (amended): `currentFlow` holds at most one flow object, and after
`endFlow` runs no flow is active any more; but when a valid flow was active
the field afterwards holds the empty object (all properties missing) rather
than the absent value `null`. -/
theorem C4_endFlow_deactivates (now : ℚ) (s : AppState) :
    flowIsActive (endFlow now s) = false ∧
    (flowIsActive s = true →
      (endFlow now s).currentFlow =
        some { name := none, startTime := none, endTime := none }) := by
  obtain ⟨st, et, fi, cf, fs, fl, it, tt, ff⟩ := s
  cases cf with
  | none =>
    refine ⟨rfl, ?_⟩
    intro h
    simp [flowIsActive, noActiveFlow] at h
  | some f =>
    obtain ⟨n, fst, fen⟩ := f
    cases n with
    | none =>
      refine ⟨rfl, ?_⟩
      intro h
      simp [flowIsActive, noActiveFlow] at h
    | some nm =>
      by_cases hnm : nm = ""
      · refine ⟨?_, ?_⟩
        · simp [endFlow, hnm, flowIsActive, noActiveFlow]
        · intro h
          simp [flowIsActive, noActiveFlow, hnm] at h
      · refine ⟨?_, ?_⟩
        · simp [endFlow, hnm, flowIsActive, noActiveFlow]
        · intro h
          simp [endFlow, hnm]

/-- C4 witness: the amended deactivation property instantiated at `stateW4`,
whose active flow is named "x", ended at time 2. -/
theorem C4_endFlow_deactivates_witness :
    flowIsActive (endFlow 2 stateW4) = false ∧
    (endFlow 2 stateW4).currentFlow =
      some { name := none, startTime := none, endTime := none } :=
  ⟨(C4_endFlow_deactivates 2 stateW4).1, (C4_endFlow_deactivates 2 stateW4).2 (by decide)⟩

/-- C9: the completed list is not non-decreasing across every operation
sequence: the reachable state `stateC9` holds one completed flow, and the
start-over reset empties the list, shrinking its length from 1 to 0. -/
theorem C9_counterexample :
    stateC9.flows.length = 1 ∧
    (applyOp Op.resetClick stateC9).flows.length = 0 := by
  exact ⟨by decide, by decide⟩

/-- C9 (amended): across every operation other than the start-over reset, the
completed list only grows by appending at the end (so its length is
non-decreasing and insertion order equals completion order); the reset clears
it to empty; and `endFlow` with no valid current flow (absent, unnamed or
empty-named) never appends. -/
theorem C9_append_only (op : Op) (s : AppState) :
    (op ≠ Op.resetClick → ∃ t, (applyOp op s).flows = s.flows ++ t) ∧
    (applyOp Op.resetClick s).flows = [] ∧
    (∀ now, noActiveFlow s.currentFlow = true → (endFlow now s).flows = s.flows) := by
  refine ⟨?_, rfl, ?_⟩
  · intro hop
    cases op with
    | startClick now => exact ⟨[], by simp [applyOp, handleStartClick]⟩
    | inputChange v => exact ⟨[], by simp [applyOp, handleFlowInputChange]⟩
    | flowSubmit now =>
      refine ⟨if s.flowInput.length = 0 then [] else [], ?_⟩
      by_cases h : s.flowInput.length = 0
      · simp [applyOp, handleFlowSubmit, h]
      · simp [applyOp, handleFlowSubmit, startFlow, h]
    | pauseClick now =>
      rcases endFlow_flows now s with h | ⟨f, h⟩
      · exact ⟨[], by simp [applyOp, handlePauseFlowClick, h]⟩
      · exact ⟨[f], by simp [applyOp, handlePauseFlowClick, h]⟩
    | endClick now =>
      rcases endFlow_flows now s with h | ⟨f, h⟩
      · exact ⟨[], by simp [applyOp, handleEndClick, h]⟩
      · exact ⟨[f], by simp [applyOp, handleEndClick, h]⟩
    | sliderChange v => exact ⟨[], by simp [applyOp, handleSliderChange]⟩
    | resetClick => exact absurd rfl hop
  · intro now h
    exact congrArg AppState.flows (endFlow_of_noActive now s h)

/-- C9 witness: the amended growth property instantiated at the pause
operation in `stateW9`, whose active flow is named "y". -/
theorem C9_append_only_witness :
    ∃ t, (applyOp (Op.pauseClick 5) stateW9).flows = stateW9.flows ++ t :=
  (C9_append_only (Op.pauseClick 5) stateW9).1 (by decide)

/-- C10: the 12-hour rendering at noon: `displayTimeStamp` shows hour 0, not a
value in 1..12, because the zero-hour remap tests `hours == 0` before the
`% 12` result instead of after (midnight itself renders as 12, and 1am as 1,
as the claim says).  Timestamp 43200 is 12:00 noon at UTC offset zero. -/
theorem C10_noon_renders_hour_zero :
    displayTimeStamp 43200 = "0:00pm" ∧
    displayTimeStamp 0 = "12:00am" ∧
    displayTimeStamp 3600 = "1:00am" := by
  exact ⟨by decide, by decide, by decide⟩

/-- Dividing any JavaScript number by (positive) zero never yields a finite
result: it is `NaN` or a signed infinity. -/
theorem div_fin_zero_nonfinite (x : JSNum) :
    (JSNum.div x (JSNum.fin 0)).isFinite = false := by
  cases x with
  | fin c =>
    simp only [JSNum.div]
    split_ifs <;> rfl
  | inf =>
    simp only [JSNum.div]
    split_ifs <;> rfl
  | neginf =>
    simp only [JSNum.div]
    split_ifs <;> rfl
  | nan => rfl

/-- Multiplying a non-finite JavaScript number by 100 stays non-finite. -/
theorem mulConst_hundred_nonfinite (x : JSNum) (h : x.isFinite = false) :
    (JSNum.mulConst x 100).isFinite = false := by
  cases x with
  | fin c => simp [JSNum.isFinite] at h
  | inf => norm_num [JSNum.mulConst, JSNum.isFinite]
  | neginf => norm_num [JSNum.mulConst, JSNum.isFinite]
  | nan => rfl

/-- With a zero total, `getOffset` never produces a finite offset. -/
theorem getOffset_zero_total (a b : JSNum) :
    (getOffset a b (JSNum.fin 0)).isFinite = false :=
  mulConst_hundred_nonfinite _ (div_fin_zero_nonfinite _)
/-- The summary of `stateC2` renders exactly one item, both offsets `NaN`. -/
theorem summaryFlowItems_stateC2 :
    summaryFlowItems stateC2 =
      [{ leftOffset := JSNum.nan, rightOffset := JSNum.nan,
         minutesOnFlow := JSNum.fin 0, taskName := some "a" }] := by
  norm_num [summaryFlowItems, stateC2, summaryKept, flowTime, optToJS, renderFlow,
    getOffset, secondsToMinutes, SECONDS_IN_MINUTE, JSNum.sub, JSNum.div, JSNum.lt,
    JSNum.mulConst, JSNum.round, List.filter, List.map]

/-- C2: the summary is not guarded against a zero total: in `stateC2` the day
has zero length, one flow passes the filter, and the rendered item's offsets
are `NaN` (the result of the JavaScript division `0 / 0` times 100), not the
claimed default of 0. -/
theorem C2_counterexample :
    stateC2.endTime - stateC2.startTime = 0 ∧
    summaryFlowItems stateC2 =
      [{ leftOffset := JSNum.nan, rightOffset := JSNum.nan,
         minutesOnFlow := JSNum.fin 0, taskName := some "a" }] ∧
    JSNum.nan ≠ JSNum.fin 0 := by
  exact ⟨by norm_num [stateC2], summaryFlowItems_stateC2, by decide⟩

/-- C2 (amended): there is no division-by-zero guard.  When
`totalTime = dayEndTime - dayStartTime` is zero, only the synthetic Total
entry carries the hard-coded 0 offsets; every rendered per-flow interval's
offsets come from the unguarded division by the zero total and are non-finite
(`NaN` or a signed infinity), never 0. -/
theorem C2_no_zero_guard (s : AppState) (h : s.endTime - s.startTime = 0) :
    (totalTimeItem s).leftOffset = JSNum.fin 0 ∧
    (totalTimeItem s).rightOffset = JSNum.fin 0 ∧
    ∀ p ∈ summaryFlowItems s,
      p.leftOffset.isFinite = false ∧ p.rightOffset.isFinite = false := by
  refine ⟨rfl, rfl, ?_⟩
  intro p hp
  simp only [summaryFlowItems, List.mem_map, List.mem_filter] at hp
  obtain ⟨f, hf, rfl⟩ := hp
  constructor
  · show (getOffset (JSNum.fin s.startTime) (optToJS f.startTime)
      (JSNum.fin (s.endTime - s.startTime))).isFinite = false
    rw [h]
    exact getOffset_zero_total _ _
  · show (getOffset (optToJS f.endTime) (JSNum.fin s.endTime)
      (JSNum.fin (s.endTime - s.startTime))).isFinite = false
    rw [h]
    exact getOffset_zero_total _ _

/-- C2 witness: the amended no-guard property instantiated at `stateC2` and
its single rendered item, whose offsets are `NaN`. -/
theorem C2_no_zero_guard_witness :
    ({ leftOffset := JSNum.nan, rightOffset := JSNum.nan,
       minutesOnFlow := JSNum.fin 0, taskName := some "a" } : FlowItemProps).leftOffset.isFinite
        = false ∧
    ({ leftOffset := JSNum.nan, rightOffset := JSNum.nan,
       minutesOnFlow := JSNum.fin 0, taskName := some "a" } : FlowItemProps).rightOffset.isFinite
        = false :=
  (C2_no_zero_guard stateC2 (by norm_num [stateC2])).2.2 _
    (by rw [summaryFlowItems_stateC2]; exact List.mem_singleton.mpr rfl)

/-- C5: the summary filter drops a completed interval exactly when its
duration in seconds is strictly below `filterFlowLength * 60`, so with the
filter at 60 minutes an interval of exactly 3600 seconds is kept and one of
3599 seconds is excluded; the rendered list is the filtered `flows` list in
order. -/
theorem C5_filter_boundary :
    (∀ (filterLen st en : ℚ) (nm : Option String),
        summaryKept filterLen { name := nm, startTime := some st, endTime := some en } = false ↔
          en - st < filterLen * SECONDS_IN_MINUTE) ∧
    summaryKept 60 { name := some "a", startTime := some 0, endTime := some 3600 } = true ∧
    summaryKept 60 { name := some "b", startTime := some 0, endTime := some 3599 } = false ∧
    ∀ s : AppState, summaryFlowItems s =
      (s.flows.filter fun f => summaryKept s.filterFlowLength f).map (renderFlow s) := by
  refine ⟨?_,
    by norm_num [summaryKept, flowTime, optToJS, JSNum.sub, JSNum.lt, SECONDS_IN_MINUTE],
    by norm_num [summaryKept, flowTime, optToJS, JSNum.sub, JSNum.lt, SECONDS_IN_MINUTE],
    fun s => rfl⟩
  intro filterLen st en nm
  simp [summaryKept, flowTime, optToJS, JSNum.sub, JSNum.lt]

/-- The summary of `stateC6` renders exactly one item with offsets 25 and 50. -/
theorem summaryFlowItems_stateC6 :
    summaryFlowItems stateC6 =
      [{ leftOffset := JSNum.fin 25, rightOffset := JSNum.fin 50,
         minutesOnFlow := JSNum.fin 30, taskName := some "a" }] := by
  norm_num [summaryFlowItems, stateC6, summaryKept, flowTime, optToJS, renderFlow,
    getOffset, secondsToMinutes, SECONDS_IN_MINUTE, JSNum.sub, JSNum.div, JSNum.lt,
    JSNum.mulConst, JSNum.round, List.filter, List.map]

/-- C6: for a rendered interval with both timestamps present and a nonzero
total, the offsets are exactly the claimed proportions
`(startTime - dayStart) / totalTime * 100` and
`(dayEnd - endTime) / totalTime * 100`; in `stateC6` (day 0..7200, flow
1800..3600, filter at 0 so the flow is kept) the rendered item has left offset
25, right offset 50. -/
theorem C6_offsets :
    (∀ (s : AppState) (f : FlowObj) (st en : ℚ),
        f.startTime = some st → f.endTime = some en → s.endTime - s.startTime ≠ 0 →
        (renderFlow s f).leftOffset =
          JSNum.fin ((st - s.startTime) / (s.endTime - s.startTime) * 100) ∧
        (renderFlow s f).rightOffset =
          JSNum.fin ((s.endTime - en) / (s.endTime - s.startTime) * 100)) ∧
    summaryFlowItems stateC6 =
      [{ leftOffset := JSNum.fin 25, rightOffset := JSNum.fin 50,
         minutesOnFlow := JSNum.fin 30, taskName := some "a" }] := by
  refine ⟨?_, summaryFlowItems_stateC6⟩
  intro s f st en hst hen h
  constructor
  · simp [renderFlow, getOffset, optToJS, hst, JSNum.sub, JSNum.div, JSNum.mulConst, h]
  · simp [renderFlow, getOffset, optToJS, hen, JSNum.sub, JSNum.div, JSNum.mulConst, h]

/-- C6 witness: the offset formula instantiated at `stateC6` and its flow. -/
theorem C6_offsets_witness :
    (renderFlow stateC6
        { name := some "a", startTime := some 1800, endTime := some 3600 }).leftOffset =
      JSNum.fin ((1800 - stateC6.startTime) / (stateC6.endTime - stateC6.startTime) * 100) ∧
    (renderFlow stateC6
        { name := some "a", startTime := some 1800, endTime := some 3600 }).rightOffset =
      JSNum.fin ((stateC6.endTime - 3600) / (stateC6.endTime - stateC6.startTime) * 100) :=
  C6_offsets.1 stateC6 { name := some "a", startTime := some 1800, endTime := some 3600 }
    1800 3600 rfl rfl (by norm_num [stateC6])

/-- C7: `secondsToMinutes` rounds a finite number of seconds to the nearest
whole minute with halves rounding up (`Math.round(seconds / 60)`, which is
the floor of `seconds / 60 + 1/2`), so 90 seconds give 2 minutes and 89
seconds give 1 minute. -/
theorem C7_duration_rounding :
    (∀ q : ℚ, secondsToMinutes (JSNum.fin q) = JSNum.fin ((⌊q / 60 + 1/2⌋ : ℤ) : ℚ)) ∧
    secondsToMinutes (JSNum.fin 90) = JSNum.fin 2 ∧
    secondsToMinutes (JSNum.fin 89) = JSNum.fin 1 := by
  refine ⟨?_,
    by norm_num [secondsToMinutes, SECONDS_IN_MINUTE, JSNum.div, JSNum.round],
    by norm_num [secondsToMinutes, SECONDS_IN_MINUTE, JSNum.div, JSNum.round]⟩
  intro q
  have h60 : (60 : ℚ) ≠ 0 := by norm_num
  simp [secondsToMinutes, SECONDS_IN_MINUTE, JSNum.div, JSNum.round, h60]

/-- C8: one serialize/deserialize round trip through the JSON document is the
identity on states: reading back the JSON form written by `saveStateToLocal`
restores a structurally equal state, for every representable state. -/
theorem C8_persistence_roundtrip (s : AppState) :
    decodeState (encodeState s) = some s := by
  obtain ⟨st, et, fi, cf, fs, fl, it, tt, ff⟩ := s
  simp [encodeState, decodeState, List.lookup, asNum, asStr, asBool, Option.bind,
    decodeCurrentFlow_encode, decodeFlowList_encode, numToFlowState_flowStateToNum]
